import Mathlib

/-!
Shallow embedding of the VulkanoApp rendering engine (C++ sources under
`src/`) together with theorems settling the frozen claims about it.
Machine integers are modelled as `Nat`/`Int` with explicit `% 2 ^ w`
where overflow matters; fallible C++ functions returning
`utils::VResult` / `utils::Result<T>` are modelled with `Except String`.
-/

namespace VulkanoApp

/-! ## Device manager (src/app/device.cpp, device.hpp) -/

/-- `SupportFeatures::GRAPHICS` bit from `device.hpp`. -/
def GRAPHICS : Nat := 0x00000001

/-- `SupportFeatures::PRESENTS` bit from `device.hpp`. -/
def PRESENTS : Nat := 0x00000002

/-- `SupportFeatures::TRANSFERT` bit from `device.hpp`. -/
def TRANSFERT : Nat := 0x00000004

/-- Inner scan loop of `app::graphics::Device::createLogicalDevice`
(device.cpp lines 269-280).  The C++ loop sets `first_index = i` at the
top of every iteration, skips (`continue`) indices present in
`took_indices`, and `break`s at the first remaining index whose support
mask contains `supported_flag`.  On normal loop exit (no `break`) the
value of `first_index` is the last index examined.  The `-1` sentinels of
`took_indices` (an `int[3]`) never compare equal to a loop index, exactly
as in the source where the comparison happens at a width the loop bound
never reaches.  Arguments: the list of remaining families to scan, the
current index `i`, and the current value of `first_index`. -/
def scanLoop (took : List Int) (supported_flag : Nat) :
    List Nat → Nat → Nat → Nat
  | [], _, first_index => first_index
  | family :: rest, i, _ =>
    if (i : Int) ∈ took then scanLoop took supported_flag rest (i + 1) i
    else if family &&& supported_flag ≠ 0 then i
    else scanLoop took supported_flag rest (i + 1) i

/-- Queue-family role assignment of
`app::graphics::Device::createLogicalDevice` (device.cpp lines 244-314),
applied to the capability matrix `m_queue_support` (one support bitmask
per queue family).  The roles are processed in the fixed order GRAPHICS,
PRESENTS, TRANSFERT; after each role the chosen index is written into
`took_indices`; the source returns the error string when
`first_index >= m_queue_support.size()`.  Returns the triple
(graphics, presents, transfert) of family indices on success. -/
def createLogicalDevice (m_queue_support : List Nat) :
    Except String (Nat × Nat × Nat) :=
  let g := scanLoop [-1, -1, -1] GRAPHICS m_queue_support 0 0
  if m_queue_support.length ≤ g then
    Except.error "No any READY queue for the physical device"
  else
    let p := scanLoop [(g : Int), -1, -1] PRESENTS m_queue_support 0 0
    if m_queue_support.length ≤ p then
      Except.error "No any READY queue for the physical device"
    else
      let t := scanLoop [(g : Int), (p : Int), -1] TRANSFERT m_queue_support 0 0
      if m_queue_support.length ≤ t then
        Except.error "No any READY queue for the physical device"
      else Except.ok (g, p, t)

/-! ## Swapchain sharing mode (src/app/swapchain.cpp, `SwapChain::create`) -/

/-- `VK_SHARING_MODE_EXCLUSIVE` (Vulkan enum value 0). -/
def VK_SHARING_MODE_EXCLUSIVE : Nat := 0

/-- `VK_SHARING_MODE_CONCURRENT` (Vulkan enum value 1). -/
def VK_SHARING_MODE_CONCURRENT : Nat := 1

/-- The `is_exclusive` computation of `SwapChain::create`
(swapchain.cpp line 194): the C++ expression
`indices[0] == indices[1] == indices[2]` associates left, so the boolean
result of `indices[0] == indices[1]` is converted to the integer 0 or 1
and compared with `indices[2]`. -/
def is_exclusive (g p t : Nat) : Bool :=
  (if g = p then (1 : Nat) else 0) = t

/-- `create_info.imageSharingMode` as set by `SwapChain::create`
(swapchain.cpp line 198). -/
def imageSharingMode (g p t : Nat) : Nat :=
  if is_exclusive g p t then VK_SHARING_MODE_EXCLUSIVE
  else VK_SHARING_MODE_CONCURRENT

/-- `create_info.queueFamilyIndexCount` as set by `SwapChain::create`
(swapchain.cpp line 203). -/
def queueFamilyIndexCount (g p t : Nat) : Nat :=
  if is_exclusive g p t then 0 else 3

/-! ## Swapchain details (src/app/swapchain.cpp, swapchain.hpp) -/

/-- `SwapChain::MAX_BUFFERS` from swapchain.hpp: the configured buffer
count, fixed at 3. -/
def MAX_BUFFERS : Nat := 3

/-- `VK_FORMAT_B8G8R8A8_SRGB` (Vulkan enum value 50), the
`PREFERED_SURFACE_FORMAT` constant from swapchain.cpp. -/
def PREFERED_SURFACE_FORMAT : Nat := 50

/-- `VK_COLORSPACE_SRGB_NONLINEAR_KHR` (Vulkan enum value 0), the
`PREFERED_COLOR_SPACE_FORMAT` constant from swapchain.cpp. -/
def PREFERED_COLOR_SPACE_FORMAT : Nat := 0

/-- `VK_PRESENT_MODE_IMMEDIATE_KHR` (Vulkan enum value 0). -/
def VK_PRESENT_MODE_IMMEDIATE_KHR : Nat := 0

/-- `VK_PRESENT_MODE_FIFO_KHR` (Vulkan enum value 2). -/
def VK_PRESENT_MODE_FIFO_KHR : Nat := 2

/-- A `VkSurfaceFormatKHR` value: a pixel format and a color space. -/
structure SurfaceFormat where
  format : Nat
  colorSpace : Nat
deriving DecidableEq, Repr

/-- The fields of `VkSurfaceCapabilitiesKHR` used by `checkDetails`. -/
structure SurfaceCapabilities where
  minImageCount : Nat
  maxImageCount : Nat
deriving DecidableEq, Repr

/-- `app::graphics::SwapChainSupportDetails` (swapchain.hpp): the
snapshot filled in by `queryDetails`. -/
structure SwapChainSupportDetails where
  capabilities : SurfaceCapabilities
  formats : List SurfaceFormat
  present_modes : List Nat
deriving DecidableEq, Repr

/-- What the Vulkan surface queries report for the current
(physical device, surface) pair: the inputs that
`vkGetPhysicalDeviceSurfaceCapabilitiesKHR` /
`vkGetPhysicalDeviceSurfaceFormatsKHR` /
`vkGetPhysicalDeviceSurfacePresentModesKHR` return inside
`queryDetails`. -/
structure Surface where
  capabilities : SurfaceCapabilities
  formats : List SurfaceFormat
  present_modes : List Nat
deriving DecidableEq, Repr

/-- `SwapChain::queryDetails` (swapchain.cpp lines 110-142): captures
the capabilities, the format list and the present-mode list reported
for the surface into `m_details`.  The source copies the format and
present-mode lists only when their reported count is positive, which is
the same as copying the (possibly empty) lists. -/
def queryDetails (s : Surface) : SwapChainSupportDetails :=
  { capabilities := s.capabilities
    formats := s.formats
    present_modes := s.present_modes }

/-- `SwapChain::checkDetails` (swapchain.cpp lines 144-154): succeeds
exactly when `minImageCount <= MAX_BUFFERS && maxImageCount >=
MAX_BUFFERS`, both the format list and the present-mode list are
non-empty, and `minImageCount > 0`. -/
def checkDetails (m_details : SwapChainSupportDetails) : Except String Unit :=
  if (m_details.capabilities.minImageCount ≤ MAX_BUFFERS ∧
      MAX_BUFFERS ≤ m_details.capabilities.maxImageCount) ∧
     (m_details.formats ≠ [] ∧ m_details.present_modes ≠ []) ∧
     0 < m_details.capabilities.minImageCount then
    Except.ok ()
  else Except.error "The supported images count is incorrect"

/-- The surface-format fallback value `formats[0]` used by
`chooseFormat`; the default is irrelevant because the caller only
reaches `chooseFormat` with a non-empty list (guaranteed by
`checkDetails`). -/
def NULL_FORMAT : SurfaceFormat := { format := 0, colorSpace := 0 }

/-- Scan loop of `chooseFormat` (swapchain.cpp lines 38-42): the first
format equal to the preferred format/color-space pair, if any. -/
def chooseFormatLoop : List SurfaceFormat → Option SurfaceFormat
  | [] => none
  | f :: rest =>
    if f.format = PREFERED_SURFACE_FORMAT ∧
       f.colorSpace = PREFERED_COLOR_SPACE_FORMAT then some f
    else chooseFormatLoop rest

/-- `chooseFormat` (swapchain.cpp lines 36-44): exact-match preference
with fallback to `formats[0]` (the source indexes `formats[0]`, defined
only for a non-empty list). -/
def chooseFormat (formats : List SurfaceFormat) : Except String SurfaceFormat :=
  match chooseFormatLoop formats with
  | some f => Except.ok f
  | none => Except.ok (formats.getD 0 NULL_FORMAT)

/-- `PREFERED_PRESENTATION_MODE` (swapchain.cpp line 28), parametrised
by the compile-time `Project::APPLICATION_FPS_LIMIT` option:
FIFO when an FPS cap is configured, immediate mode otherwise. -/
def PREFERED_PRESENTATION_MODE (fps_limit : Option Nat) : Nat :=
  if fps_limit.isSome then VK_PRESENT_MODE_FIFO_KHR
  else VK_PRESENT_MODE_IMMEDIATE_KHR

/-- The default `Project::APPLICATION_FPS_LIMIT` (project.hpp): 60 FPS
unless the build disables the cap. -/
def APPLICATION_FPS_LIMIT : Option Nat := some 60

/-- `choosePresentMode` (swapchain.cpp lines 52-63): returns the first
list entry equal to the preferred presentation mode, and the error
result when no entry matches — there is no fallback. -/
def choosePresentMode (fps_limit : Option Nat) :
    List Nat → Except String Nat
  | [] => Except.error "Our prefered presentation mode is not found"
  | mode :: rest =>
    if mode = PREFERED_PRESENTATION_MODE fps_limit then Except.ok mode
    else choosePresentMode fps_limit rest

/-- A surface report with `minImageCount = 0`: the configured buffer
count 3 lies within `[0, 3]` and both lists are non-empty, yet
`checkDetails` rejects it through its extra `minImageCount > 0`
conjunct. -/
def surfaceMinZero : Surface :=
  { capabilities := { minImageCount := 0, maxImageCount := 3 }
    formats := [{ format := 50, colorSpace := 0 }]
    present_modes := [2] }

/-! ## Physical-device selection (src/app/device.cpp) -/

/-- `VK_PHYSICAL_DEVICE_TYPE_DISCRETE_GPU` (Vulkan enum value 2). -/
def VK_PHYSICAL_DEVICE_TYPE_DISCRETE_GPU : Nat := 2

/-- `APPLE_M1_NAME` from device.cpp. -/
def APPLE_M1_NAME : String := "Apple M1"

/-- `APPLE_M2_NAME` from device.cpp. -/
def APPLE_M2_NAME : String := "Apple M2"

/-- A `VkPhysicalDevice` together with the cached properties that
`isDeviceSuitable` reads: whether the handle is null, the device name,
and the device type. -/
structure PhysicalDevice where
  isNull : Bool
  deviceName : String
  deviceType : Nat
deriving DecidableEq, Repr

/-- The `getD` default used when stating first-fit selection; selection
never returns it because the stated index is in bounds. -/
def NULL_DEVICE : PhysicalDevice :=
  { isNull := true, deviceName := "", deviceType := 0 }

/-- `isDeviceSuitable` (device.cpp lines 49-83) with
`NEEDS_GEOMETRY_SHADER = 0`: a null device is never suitable; on the
Apple platform the device is suitable when it is Apple M1/M2 silicon or
a discrete GPU, elsewhere only when it is a discrete GPU. -/
def isDeviceSuitable (apple_platform : Bool) (device : PhysicalDevice) : Bool :=
  if device.isNull then false
  else
    let is_apple_silicon :=
      device.deviceName == APPLE_M1_NAME || device.deviceName == APPLE_M2_NAME
    let is_discrete_gpu :=
      device.deviceType == VK_PHYSICAL_DEVICE_TYPE_DISCRETE_GPU
    if apple_platform then is_apple_silicon || is_discrete_gpu
    else is_discrete_gpu

/-- Candidate loop of `Device::listDevices` (device.cpp lines 157-168):
the first suitable device in enumeration order, or the no-suitable-device
error. -/
def listDevicesLoop (apple_platform : Bool) :
    List PhysicalDevice → Except String PhysicalDevice
  | [] => Except.error "no suitable physical device"
  | device :: rest =>
    if isDeviceSuitable apple_platform device then Except.ok device
    else listDevicesLoop apple_platform rest

/-- `Device::listDevices` (device.cpp lines 146-169): the empty
enumeration fails with a distinct error before the suitability scan. -/
def listDevices (apple_platform : Bool) (devices : List PhysicalDevice) :
    Except String PhysicalDevice :=
  if devices.length = 0 then Except.error "no supported physical device"
  else listDevicesLoop apple_platform devices

/-- An integrated (non-discrete, non-Apple-silicon) candidate device. -/
def DEVICE_INTEGRATED : PhysicalDevice :=
  { isNull := false, deviceName := "Integrated GPU", deviceType := 1 }

/-- A first discrete-GPU candidate device. -/
def DEVICE_DISCRETE_A : PhysicalDevice :=
  { isNull := false, deviceName := "Discrete GPU A", deviceType := 2 }

/-- A second discrete-GPU candidate device, enumerated after
`DEVICE_DISCRETE_A`. -/
def DEVICE_DISCRETE_B : PhysicalDevice :=
  { isNull := false, deviceName := "Discrete GPU B", deviceType := 2 }

/-! ## Frame scheduler (src/application.cpp, src/app/render.cpp) -/

/-- The range of a `uint32_t`, used by the explicit cast in
`Render::updateFrameIndex`. -/
def UINT32_RANGE : Nat := 2 ^ 32

/-- `Render::updateFrameIndex` (render.cpp lines 297-301):
`m_frame_index = (uint32_t)current_frame % m_framebuffers.size()` —
the 64-bit frame counter is truncated to 32 bits before the modulo. -/
def updateFrameIndex (framebuffer_count : Nat) (current_frame : Nat) : Nat :=
  (current_frame % UINT32_RANGE) % framebuffer_count

/-- The scheduler state of `app::Application`: the monotonically
increasing frame counter `m_current_frame` (initialised to 1) and the
shared frame-index slot `m_frame_index` (initialised to 0). -/
structure SchedulerState where
  m_current_frame : Nat
  m_frame_index : Nat
deriving DecidableEq, Repr

/-- `Pipeline::acquireImage` (pipeline.cpp lines 623-646) as it affects
the frame index: `vkAcquireNextImageKHR` writes the acquired image index
into the shared frame-index slot. -/
def acquireImage (acquired_index : Nat) (s : SchedulerState) : SchedulerState :=
  { s with m_frame_index := acquired_index }

/-- One iteration of `Application::drawFrame` (application.cpp lines
255-294) as it affects the scheduler state: acquire (which writes the
driver-provided image index), draw, present, then
`updateFrameIndex(m_current_frame)` followed by `++m_current_frame`.
Both the capped and the uncapped branch perform the same updates. -/
def drawFrame (framebuffer_count : Nat) (acquired_index : Nat)
    (s : SchedulerState) : SchedulerState :=
  let s1 := acquireImage acquired_index s
  { m_current_frame := s1.m_current_frame + 1
    m_frame_index := updateFrameIndex framebuffer_count s1.m_current_frame }

/-- The scheduler state at program start: `m_current_frame = 1`
(application.hpp) and `m_frame_index = 0` (render.hpp). -/
def initialScheduler : SchedulerState :=
  { m_current_frame := 1, m_frame_index := 0 }

/-- The scheduler state after `n` completed (presented) frames, where
`acq k` is the image index the driver reports during frame `k`. -/
def runFrames (framebuffer_count : Nat) (acq : Nat → Nat) :
    Nat → SchedulerState
  | 0 => initialScheduler
  | n + 1 => drawFrame framebuffer_count (acq n) (runFrames framebuffer_count acq n)

/-! ## Frame pacing (src/utils/timer.h, src/application.cpp) -/

/-- `Timer::get_time_limit` (timer.h): `(double)NOW_MS + ms_to_add`,
over exact rationals; `now_ms` is the millisecond clock reading taken
when the deadline is computed. -/
def get_time_limit (now_ms : Nat) (ms_to_add : ℚ) : ℚ :=
  (now_ms : ℚ) + ms_to_add

/-- The `static_cast<uint64_t>` applied to the deadline in
`Application::drawFrame` (application.cpp line 275): C++ float-to-integer
conversion truncates toward zero, which is the floor for the
non-negative values involved. -/
def uint64_cast (x : ℚ) : Nat := (⌊x⌋).toNat

/-- The deadline `Application::drawFrame` passes to `block_until`
(application.cpp lines 259-260, 275): `wait_ms = 1000.0f / cap` and
`wait_until_ms = get_time_limit(wait_ms)`, truncated to `uint64_t`.
The rational `1000 / cap` stands for the C++ float, which differs from
it by less than 2 ^ (-18) — far too little to move the truncation for an
integer clock reading. -/
def drawFrameDeadline (fps_cap : Nat) (now_ms : Nat) : Nat :=
  uint64_cast (get_time_limit now_ms (1000 / (fps_cap : ℚ)))

/-- `Timer::block_until` (timer.h lines 50-58) polls `NOW_MS` and exits
at the first poll whose reading is at least `time_limit`.  `clock k` is
the (monotone in practice, but unconstrained here) reading observed at
poll `k`; the proposition says the busy-wait loop exits at poll `k`. -/
def block_until_exits_at (clock : Nat → Nat) (time_limit : Nat) (k : Nat) : Prop :=
  time_limit ≤ clock k ∧ ∀ j, j < k → clock j < time_limit

/-- The constant clock used to witness an early return of
`block_until`: every poll reads 16 ms. -/
def clock16 : Nat → Nat := fun _ => 16

/-! ## Vertex / index buffer creation (src/app/pipeline.cpp) -/

/-- The `m_vertex_buffer` / `m_index_buffer` handles of
`app::graphics::Pipeline`; `none` models `VK_NULL_HANDLE`, `some b`
a live `VkBuffer` with identity `b`. -/
structure PipelineBufferState where
  m_vertex_buffer : Option Nat
  m_index_buffer : Option Nat
deriving DecidableEq, Repr

/-- `Pipeline::createVertexBuffer` (pipeline.cpp lines 431-506): the
live body only destroys a pre-existing vertex buffer (guarded by a
null check, nulling the handle) and returns `Ok` — the whole
staging-buffer fill and transfer-queue copy (lines 451-503) is commented
out in the source and `buffer_size` is the constant 0, so no new buffer
is ever allocated.  The middle component lists the native buffers
destroyed by the call. -/
def createVertexBuffer (s : PipelineBufferState) :
    PipelineBufferState × List Nat × Except String Unit :=
  ({ s with m_vertex_buffer := none },
   s.m_vertex_buffer.toList,
   Except.ok ())

/-- `Pipeline::createIndexBuffer` (pipeline.cpp lines 508-584): same
shape as `createVertexBuffer` — the staging-and-copy block is commented
out, the call only destroys a pre-existing index buffer and succeeds. -/
def createIndexBuffer (s : PipelineBufferState) :
    PipelineBufferState × List Nat × Except String Unit :=
  ({ s with m_index_buffer := none },
   s.m_index_buffer.toList,
   Except.ok ())

/-! ## Component teardown (device.cpp, swapchain.cpp, pipeline.cpp, command.cpp) -/

/-- The logical-device handle owned by `app::graphics::Device`. -/
structure DeviceState where
  m_logical_device : Option Nat
deriving DecidableEq, Repr

/-- `Device::Destroy` (device.cpp lines 120-127): destroys the logical
device when the handle is non-null and nulls it.  The second component
lists the native objects destroyed. -/
def Device.Destroy (s : DeviceState) : DeviceState × List Nat :=
  match s.m_logical_device with
  | some d => ({ m_logical_device := none }, [d])
  | none => (s, [])

/-- The swapchain handle owned by `app::graphics::SwapChain`. -/
structure SwapChainState where
  m_swapchain : Option Nat
deriving DecidableEq, Repr

/-- The `~SwapChain` destructor body (swapchain.cpp lines 96-108) as it
destroys native objects: guarded by a null check, nulls the handle. -/
def swapChainDestructor (s : SwapChainState) : SwapChainState × List Nat :=
  match s.m_swapchain with
  | some sc => ({ m_swapchain := none }, [sc])
  | none => (s, [])

/-- The command pool and command buffer owned by
`app::graphics::Command`. -/
structure CommandState where
  m_pool : Option Nat
  m_buffer : Option Nat
deriving DecidableEq, Repr

/-- The `~Command` destructor body (command.cpp lines 17-26): when the
pool is non-null it is destroyed (only if the logical device is still
non-null) and nulled; the buffer pointer is always nulled (buffers are
freed with their pool, never individually). -/
def commandDestructor (device_non_null : Bool) (s : CommandState) :
    CommandState × List Nat :=
  match s.m_pool with
  | some p =>
    ({ m_pool := none, m_buffer := none },
     if device_non_null then [p] else [])
  | none => ({ s with m_buffer := none }, [])

/-- The native handles owned by `app::graphics::Pipeline` that its
destructor releases (pipeline.cpp lines 22-85). -/
structure PipelineState where
  m_shader_modules : List Nat
  m_render_pass : Option Nat
  m_layout : Option Nat
  m_vertex_buffer : Option Nat
  m_index_buffer : Option Nat
  m_pipeline : Option Nat
  m_sync_image_ready : Option Nat
  m_sync_present_done : Option Nat
  m_sync_cpu_gpu : Option Nat
deriving DecidableEq, Repr

/-- The `~Pipeline` destructor body (pipeline.cpp lines 22-85): each
handle destruction is guarded (`VK_NULL_HANDLE` / null-pointer check)
and nulls the field afterwards — except the shader modules, which are
destroyed whenever `m_shader_modules.size() > 0` but whose vector is
never cleared.  The second component lists the native objects destroyed,
in source order. -/
def pipelineDestructor (s : PipelineState) : PipelineState × List Nat :=
  ({ s with
      m_render_pass := none
      m_layout := none
      m_vertex_buffer := none
      m_index_buffer := none
      m_pipeline := none
      m_sync_image_ready := none
      m_sync_present_done := none
      m_sync_cpu_gpu := none },
   s.m_shader_modules ++ s.m_render_pass.toList ++ s.m_layout.toList ++
     s.m_vertex_buffer.toList ++ s.m_index_buffer.toList ++
     s.m_pipeline.toList ++ s.m_sync_image_ready.toList ++
     s.m_sync_present_done.toList ++ s.m_sync_cpu_gpu.toList)

/-- A pipeline state holding one shader module and a render pass, used
to exhibit the non-idempotent teardown step. -/
def pipelineExample : PipelineState :=
  { m_shader_modules := [42]
    m_render_pass := some 7
    m_layout := none
    m_vertex_buffer := none
    m_index_buffer := none
    m_pipeline := none
    m_sync_image_ready := none
    m_sync_present_done := none
    m_sync_cpu_gpu := none }

/-! ## Command recording (src/app/command.cpp) -/

/-- The GPU commands `Command::record` can append to the command
buffer, in the order the source issues them. -/
inductive Cmd where
  | beginRenderPass : Cmd
  | bindPipeline : Cmd
  | setViewport : Cmd
  | setScissor : Cmd
  | bindVertexBuffers : Cmd
  | bindIndexBuffer : Cmd
  | drawIndexed (index_count instance_count first_index vertex_offset
      first_instance : Nat) : Cmd
  | endRenderPass : Cmd
deriving DecidableEq, Repr

/-- Whether a recorded command is an indexed draw. -/
def isDrawIndexed : Cmd → Bool
  | Cmd.drawIndexed _ _ _ _ _ => true
  | _ => false

/-- `Command::record` (command.cpp lines 64-151): after resetting and
beginning the buffer (`begin_ok` models the `vkBeginCommandBuffer`
result), it bound-checks the frame index against the framebuffer count,
begins the render pass, binds the pipeline, sets the dynamic
viewport/scissor, binds the vertex and index buffers, issues exactly one
`vkCmdDrawIndexed` whose index count is the local `indices_size = 0`
(command.cpp lines 134-136), ends the render pass and ends the buffer
(`end_ok` models the `vkEndCommandBuffer` result).  On success it
returns the recorded command sequence. -/
def record (begin_ok end_ok : Bool) (swapchain_index framebuffer_count : Nat) :
    Except String (List Cmd) :=
  if begin_ok = false then
    Except.error "< Error creating the command buffer"
  else if framebuffer_count ≤ swapchain_index then
    Except.error "< The swapchain_index parameter is incorrect: not enough framebuffers"
  else if end_ok = false then
    Except.error "< Error recording the command buffer"
  else
    Except.ok
      [Cmd.beginRenderPass, Cmd.bindPipeline, Cmd.setViewport,
       Cmd.setScissor, Cmd.bindVertexBuffers, Cmd.bindIndexBuffer,
       Cmd.drawIndexed 0 1 0 0 0, Cmd.endRenderPass]

/-! ## Theorems -/

/-- C1: for the capability matrix with a single queue family supporting
all three roles (mask `GRAPHICS ||| PRESENTS ||| TRANSFERT = 7`), the
PRESENTS and TRANSFERT roles have no remaining unclaimed supporting
family once GRAPHICS has claimed family 0, yet `createLogicalDevice`
returns success and assigns family 0 to all three roles instead of
returning an error: the `first_index >= size` error branch is
unreachable for a non-empty family list, and the assigned indices are
not pairwise distinct. -/
theorem createLogicalDevice_missing_role_no_error :
    createLogicalDevice [GRAPHICS ||| PRESENTS ||| TRANSFERT] =
      Except.ok (0, 0, 0) := rfl

/-- C4: for the pairwise-distinct triple of queue-family indices
(graphics, presents, transfer) = (1, 2, 0) — which is not all-equal and
has a transfer family distinct from the other two — `SwapChain::create`
computes `is_exclusive = ((1 == 2) == 0) = true` because of the chained
comparison, so the swapchain is built with exclusive image sharing mode
and zero shared queue families, contradicting the claim (and the
source's own `assert` that the sharing mode is concurrent). -/
theorem imageSharingMode_assert_violation :
    is_exclusive 1 2 0 = true ∧
    imageSharingMode 1 2 0 = VK_SHARING_MODE_EXCLUSIVE ∧
    queueFamilyIndexCount 1 2 0 = 0 ∧
    ((1 : Nat) ≠ 2 ∧ (2 : Nat) ≠ 0 ∧ (1 : Nat) ≠ 0) := by
  refine ⟨rfl, rfl, rfl, by decide⟩

/-- The frame counter after `n` completed frames: it starts at 1 and is
incremented once per frame, after `updateFrameIndex`. -/
theorem runFrames_m_current_frame (framebuffer_count : Nat) (acq : Nat → Nat)
    (n : Nat) : (runFrames framebuffer_count acq n).m_current_frame = n + 1 := by
  induction n with
  | zero => rfl
  | succ n ih => simp [runFrames, drawFrame, acquireImage, ih]

/-- The frame index after `n` completed frames: the counter value `n`
used by the last `updateFrameIndex` call is truncated to 32 bits before
the modulo by the framebuffer count. -/
theorem runFrames_m_frame_index (framebuffer_count : Nat) (acq : Nat → Nat)
    (n : Nat) : (runFrames framebuffer_count acq n).m_frame_index =
      (n % UINT32_RANGE) % framebuffer_count := by
  cases n with
  | zero => simp [runFrames, initialScheduler]
  | succ n =>
    simp [runFrames, drawFrame, acquireImage, updateFrameIndex,
      runFrames_m_current_frame]

/-- C2 counterexample: with buffer count 3, after `2 ^ 32` presented
frames the frame index is `(2 ^ 32 % 2 ^ 32) % 3 = 0`, not
`2 ^ 32 mod 3 = 1`: `updateFrameIndex` casts the 64-bit frame counter to
`uint32_t` before the modulo, so the claimed `frameIndex == N mod B`
fails once `N` reaches `2 ^ 32`. -/
theorem frame_index_wraps_at_2_pow_32 :
    (runFrames 3 (fun _ => 0) (2 ^ 32)).m_frame_index ≠ 2 ^ 32 % 3 := by
  rw [runFrames_m_frame_index]
  decide

/-- C2 (amended): with buffer count `B > 0`, after `N` presented frames
the frame index equals `(N mod 2 ^ 32) mod B` — which equals `N mod B`
whenever `N < 2 ^ 32` — the frame counter starts at 1 and is incremented
only after the index update, and at every observation point (initially,
after the acquire writes a driver index below `B`, and after the
post-present update) the frame index is strictly less than `B`. -/
theorem frame_index_invariant (framebuffer_count : Nat)
    (hfb : 0 < framebuffer_count) (acq : Nat → Nat)
    (hacq : ∀ k, acq k < framebuffer_count) (n : Nat) :
    (runFrames framebuffer_count acq n).m_frame_index =
        (n % UINT32_RANGE) % framebuffer_count ∧
    (n < UINT32_RANGE →
      (runFrames framebuffer_count acq n).m_frame_index =
        n % framebuffer_count) ∧
    (runFrames framebuffer_count acq n).m_current_frame = n + 1 ∧
    (runFrames framebuffer_count acq n).m_frame_index < framebuffer_count ∧
    (acquireImage (acq n) (runFrames framebuffer_count acq n)).m_frame_index <
        framebuffer_count := by
  refine ⟨runFrames_m_frame_index _ _ _, ?_, runFrames_m_current_frame _ _ _,
    ?_, ?_⟩
  · intro hn
    rw [runFrames_m_frame_index, Nat.mod_eq_of_lt hn]
  · rw [runFrames_m_frame_index]
    exact Nat.mod_lt _ hfb
  · simpa [acquireImage] using hacq n

/-- C2 witness: the frame-index invariant evaluated after 5 frames with
buffer count 3 and a driver that always reports image 0. -/
theorem frame_index_invariant_witness :
    (runFrames 3 (fun _ => 0) 5).m_frame_index = (5 % UINT32_RANGE) % 3 ∧
    (runFrames 3 (fun _ => 0) 5).m_frame_index < 3 ∧
    (runFrames 3 (fun _ => 0) 5).m_current_frame = 5 + 1 :=
  ⟨(frame_index_invariant 3 (by decide) (fun _ => 0) (fun _ => Nat.succ_pos 2) 5).1,
   (frame_index_invariant 3 (by decide) (fun _ => 0) (fun _ => Nat.succ_pos 2)
      5).2.2.2.1,
   (frame_index_invariant 3 (by decide) (fun _ => 0) (fun _ => Nat.succ_pos 2)
      5).2.2.1⟩

/-- C3 counterexample: the surface report with `minImageCount = 0`,
`maxImageCount = 3` and non-empty format and present-mode lists
satisfies the claimed success condition (the configured buffer count 3
lies within `[0, 3]` and both lists are non-empty), yet
`queryDetails` followed by `checkDetails` fails, because `checkDetails`
additionally requires `minImageCount > 0`. -/
theorem checkDetails_min_zero_counterexample :
    (surfaceMinZero.capabilities.minImageCount ≤ MAX_BUFFERS ∧
     MAX_BUFFERS ≤ surfaceMinZero.capabilities.maxImageCount ∧
     surfaceMinZero.formats ≠ [] ∧ surfaceMinZero.present_modes ≠ []) ∧
    checkDetails (queryDetails surfaceMinZero) =
      Except.error "The supported images count is incorrect" :=
  ⟨by decide, rfl⟩

/-- C3 (amended): `queryDetails` followed immediately by `checkDetails`
on an unmodified surface succeeds if and only if the configured buffer
count 3 lies within `[minImageCount, maxImageCount]` of the captured
capabilities, the captured format and present-mode lists are both
non-empty, and additionally `minImageCount > 0`; in every other case
`checkDetails` returns an error. -/
theorem checkDetails_roundtrip_iff (s : Surface) :
    checkDetails (queryDetails s) = Except.ok () ↔
      ((s.capabilities.minImageCount ≤ MAX_BUFFERS ∧
        MAX_BUFFERS ≤ s.capabilities.maxImageCount) ∧
       (s.formats ≠ [] ∧ s.present_modes ≠ []) ∧
       0 < s.capabilities.minImageCount) := by
  simp only [checkDetails, queryDetails]
  split
  · next h => exact iff_of_true rfl h
  · next h => exact iff_of_false (by simp) h

/-- When the preferred presentation mode occurs in the list,
`choosePresentMode` returns it. -/
theorem choosePresentMode_of_mem (fps_limit : Option Nat)
    (present_modes : List Nat)
    (h : PREFERED_PRESENTATION_MODE fps_limit ∈ present_modes) :
    choosePresentMode fps_limit present_modes =
      Except.ok (PREFERED_PRESENTATION_MODE fps_limit) := by
  induction present_modes with
  | nil => simp at h
  | cons mode rest ih =>
    by_cases hm : mode = PREFERED_PRESENTATION_MODE fps_limit
    · simp [choosePresentMode, hm]
    · have hr : PREFERED_PRESENTATION_MODE fps_limit ∈ rest := by
        rcases List.mem_cons.mp h with h1 | h1
        · exact absurd h1.symm hm
        · exact h1
      simp [choosePresentMode, hm, ih hr]

/-- When the preferred presentation mode does not occur in the list,
`choosePresentMode` fails. -/
theorem choosePresentMode_of_not_mem (fps_limit : Option Nat)
    (present_modes : List Nat)
    (h : PREFERED_PRESENTATION_MODE fps_limit ∉ present_modes) :
    choosePresentMode fps_limit present_modes =
      Except.error "Our prefered presentation mode is not found" := by
  induction present_modes with
  | nil => rfl
  | cons mode rest ih =>
    have hm : mode ≠ PREFERED_PRESENTATION_MODE fps_limit := by
      intro he
      exact h (he ▸ List.mem_cons_self mode rest)
    have hr : PREFERED_PRESENTATION_MODE fps_limit ∉ rest :=
      fun hx => h (List.mem_cons_of_mem mode hx)
    simp [choosePresentMode, hm, ih hr]

/-- When no list entry matches the preferred format/color-space pair,
the `chooseFormat` scan loop finds nothing. -/
theorem chooseFormatLoop_eq_none (formats : List SurfaceFormat)
    (h : ∀ f ∈ formats, ¬(f.format = PREFERED_SURFACE_FORMAT ∧
        f.colorSpace = PREFERED_COLOR_SPACE_FORMAT)) :
    chooseFormatLoop formats = none := by
  induction formats with
  | nil => rfl
  | cons f rest ih =>
    have hf := h f (List.mem_cons_self f rest)
    simp [chooseFormatLoop, hf,
      ih (fun x hx => h x (List.mem_cons_of_mem f hx))]

/-- C5: for every list of available present modes, `choosePresentMode`
returns the single preferred mode (FIFO when an FPS cap is configured,
immediate mode otherwise) when the list contains it, and returns the
error result when the preferred mode is absent — it never falls back to
another mode — unlike `chooseFormat`, which falls back to the first list
entry when no entry matches the preferred format/color-space pair. -/
theorem choosePresentMode_no_fallback (fps_limit : Option Nat)
    (present_modes : List Nat) (formats : List SurfaceFormat) :
    (PREFERED_PRESENTATION_MODE fps_limit ∈ present_modes →
       choosePresentMode fps_limit present_modes =
         Except.ok (PREFERED_PRESENTATION_MODE fps_limit)) ∧
    (PREFERED_PRESENTATION_MODE fps_limit ∉ present_modes →
       choosePresentMode fps_limit present_modes =
         Except.error "Our prefered presentation mode is not found") ∧
    (fps_limit.isSome = true →
       PREFERED_PRESENTATION_MODE fps_limit = VK_PRESENT_MODE_FIFO_KHR) ∧
    (fps_limit = none →
       PREFERED_PRESENTATION_MODE fps_limit = VK_PRESENT_MODE_IMMEDIATE_KHR) ∧
    ((∀ f ∈ formats, ¬(f.format = PREFERED_SURFACE_FORMAT ∧
         f.colorSpace = PREFERED_COLOR_SPACE_FORMAT)) →
       chooseFormat formats = Except.ok (formats.getD 0 NULL_FORMAT)) := by
  refine ⟨choosePresentMode_of_mem fps_limit present_modes,
    choosePresentMode_of_not_mem fps_limit present_modes, ?_, ?_, ?_⟩
  · intro h
    simp [PREFERED_PRESENTATION_MODE, h]
  · intro h
    simp [PREFERED_PRESENTATION_MODE, h]
  · intro h
    simp [chooseFormat, chooseFormatLoop_eq_none formats h]

/-- C5 witness: with the 60-FPS cap, the mode list `[immediate]` lacks
the preferred FIFO mode and `choosePresentMode` fails; without a cap,
immediate mode is preferred and found; `chooseFormat` on a list whose
entries all differ from the preferred pair returns the first entry. -/
theorem choosePresentMode_no_fallback_witness :
    choosePresentMode (some 60) [VK_PRESENT_MODE_IMMEDIATE_KHR] =
      Except.error "Our prefered presentation mode is not found" ∧
    choosePresentMode none
        [VK_PRESENT_MODE_FIFO_KHR, VK_PRESENT_MODE_IMMEDIATE_KHR] =
      Except.ok (PREFERED_PRESENTATION_MODE none) ∧
    chooseFormat [{ format := 44, colorSpace := 0 }, { format := 50, colorSpace := 1 }] =
      Except.ok ({ format := 44, colorSpace := 0 } : SurfaceFormat) :=
  ⟨(choosePresentMode_no_fallback (some 60) [VK_PRESENT_MODE_IMMEDIATE_KHR]
      []).2.1 (by decide),
   (choosePresentMode_no_fallback none
      [VK_PRESENT_MODE_FIFO_KHR, VK_PRESENT_MODE_IMMEDIATE_KHR] []).1
      (by decide),
   (choosePresentMode_no_fallback none []
      [{ format := 44, colorSpace := 0 }, { format := 50, colorSpace := 1 }]).2.2.2.2
      (by decide)⟩

/-- When no candidate is suitable, the device scan of `listDevices`
reports the no-suitable-device error. -/
theorem listDevicesLoop_all_unsuitable (apple_platform : Bool)
    (devices : List PhysicalDevice)
    (h : ∀ d ∈ devices, isDeviceSuitable apple_platform d = false) :
    listDevicesLoop apple_platform devices =
      Except.error "no suitable physical device" := by
  induction devices with
  | nil => rfl
  | cons device rest ih =>
    have hd := h device (List.mem_cons_self device rest)
    simp [listDevicesLoop, hd,
      ih (fun x hx => h x (List.mem_cons_of_mem device hx))]

/-- The device scan of `listDevices` returns the candidate at the first
position whose suitability check passes. -/
theorem listDevicesLoop_first (apple_platform : Bool)
    (devices : List PhysicalDevice) (i : Nat) (hi : i < devices.length)
    (hs : isDeviceSuitable apple_platform (devices.getD i NULL_DEVICE) = true)
    (hj : ∀ j, j < i →
      isDeviceSuitable apple_platform (devices.getD j NULL_DEVICE) = false) :
    listDevicesLoop apple_platform devices =
      Except.ok (devices.getD i NULL_DEVICE) := by
  induction devices generalizing i with
  | nil => simp at hi
  | cons device rest ih =>
    cases i with
    | zero =>
      simp only [List.getD_cons_zero] at hs ⊢
      simp [listDevicesLoop, hs]
    | succ k =>
      have hd : isDeviceSuitable apple_platform device = false := by
        simpa using hj 0 (Nat.succ_pos k)
      simp only [List.getD_cons_succ] at hs ⊢
      simp only [listDevicesLoop, hd, Bool.false_eq_true, if_false]
      exact ih k (by simpa using hi) hs
        (fun j hjk => by simpa using hj (j + 1) (Nat.succ_lt_succ hjk))

/-- C6: for every list of physical-device candidates, `listDevices`
fails with the distinct no-device error on the empty enumeration, fails
with the no-suitable-device error when no candidate passes
`isDeviceSuitable` (discrete GPU, or on the Apple platform an Apple
M1/M2 name match), and otherwise returns the candidate at the first
suitable position in enumeration order — never a later one. -/
theorem listDevices_first_fit (apple_platform : Bool)
    (devices : List PhysicalDevice) :
    (devices = [] →
       listDevices apple_platform devices =
         Except.error "no supported physical device") ∧
    (devices ≠ [] →
       (∀ d ∈ devices, isDeviceSuitable apple_platform d = false) →
       listDevices apple_platform devices =
         Except.error "no suitable physical device") ∧
    (∀ i, i < devices.length →
       isDeviceSuitable apple_platform (devices.getD i NULL_DEVICE) = true →
       (∀ j, j < i →
         isDeviceSuitable apple_platform (devices.getD j NULL_DEVICE) = false) →
       listDevices apple_platform devices =
         Except.ok (devices.getD i NULL_DEVICE)) := by
  refine ⟨?_, ?_, ?_⟩
  · intro h
    subst h
    rfl
  · intro hne h
    have hlen : devices.length ≠ 0 := by
      simpa [List.length_eq_zero] using hne
    simp [listDevices, hlen,
      listDevicesLoop_all_unsuitable apple_platform devices h]
  · intro i hi hs hj
    have hlen : devices.length ≠ 0 := by omega
    simp [listDevices, hlen,
      listDevicesLoop_first apple_platform devices i hi hs hj]

/-- C6 witness: with an integrated GPU enumerated first and two discrete
GPUs after it, `listDevices` returns the first discrete candidate, not
the equally suitable later one. -/
theorem listDevices_first_fit_witness :
    listDevices false [DEVICE_INTEGRATED, DEVICE_DISCRETE_A, DEVICE_DISCRETE_B] =
      Except.ok DEVICE_DISCRETE_A :=
  (listDevices_first_fit false
      [DEVICE_INTEGRATED, DEVICE_DISCRETE_A, DEVICE_DISCRETE_B]).2.2 1
    (by decide) (by decide) (by decide)

/-- The deadline `drawFrame` computes for the 60-FPS cap: the cast to
`uint64_t` truncates `now + 1000/60` down to `now + 16` whole
milliseconds. -/
theorem drawFrameDeadline_60 (now_ms : Nat) :
    drawFrameDeadline 60 now_ms = now_ms + 16 := by
  have h : ⌊((now_ms : ℚ) + 1000 / ((60 : Nat) : ℚ))⌋ = (now_ms : ℤ) + 16 := by
    rw [show ((now_ms : ℚ) + 1000 / ((60 : Nat) : ℚ)) =
        (((now_ms : ℤ) : ℚ) + 1000 / 60) by push_cast; ring]
    rw [Int.floor_int_add]
    norm_num [Int.floor_eq_iff]
  unfold drawFrameDeadline uint64_cast get_time_limit
  rw [h]
  omega

/-- C7 counterexample: with FPS cap 60 and the deadline computed at
clock reading 0, the deadline passed to `block_until` is the truncated
value 16, so a poll that reads 16 ms exits the busy-wait loop — only
16 ms after the deadline was computed, which is strictly less than the
claimed minimum of `1000/60 ≈ 16.67` ms. -/
theorem block_until_returns_before_full_frame_interval :
    block_until_exits_at clock16 (drawFrameDeadline 60 0) 0 ∧
    ((clock16 0 : ℚ) - (0 : ℚ) < 1000 / 60) := by
  refine ⟨⟨?_, ?_⟩, ?_⟩
  · rw [drawFrameDeadline_60]
    norm_num [clock16]
  · intro j hj
    exact absurd hj (Nat.not_lt_zero j)
  · norm_num [clock16]

/-- C7 (amended): with FPS cap 60 the per-frame deadline is the
`uint64_t` truncation of `now + 1000/60` milliseconds, computed before
the acquire/draw/present sequence, and `block_until` returns only when
the current millisecond clock reading is at least that deadline — hence
at least `⌊1000/60⌋ = 16` ms (not the full `1000/60 ≈ 16.67` ms) after
the deadline was computed, regardless of how short the render took. -/
theorem block_until_elapsed_lower_bound (now_ms : Nat) (clock : Nat → Nat)
    (k : Nat)
    (h : block_until_exits_at clock (drawFrameDeadline 60 now_ms) k) :
    drawFrameDeadline 60 now_ms ≤ clock k ∧ now_ms + 16 ≤ clock k := by
  refine ⟨h.1, ?_⟩
  rw [← drawFrameDeadline_60 now_ms]
  exact h.1

/-- C7 witness: the elapsed-time lower bound applied to the constant
16 ms clock exiting at poll 0. -/
theorem block_until_elapsed_lower_bound_witness :
    drawFrameDeadline 60 0 ≤ clock16 0 ∧ 0 + 16 ≤ clock16 0 :=
  block_until_elapsed_lower_bound 0 clock16 0
    ⟨by rw [drawFrameDeadline_60]; norm_num [clock16],
     fun j hj => absurd hj (Nat.not_lt_zero j)⟩

/-- C8 counterexample: starting from a pipeline holding live vertex and
index buffers, `createVertexBuffer` succeeds yet leaves the vertex
buffer handle null (and likewise `createIndexBuffer` for the index
buffer): the staging-buffer allocation and transfer-queue copy are
commented out in the source, so no buffer is allocated and the claim
that a successful call leaves a valid non-null buffer fails. -/
theorem createVertexBuffer_leaves_handle_null :
    (createVertexBuffer { m_vertex_buffer := some 5, m_index_buffer := some 6 }).2.2 =
      Except.ok () ∧
    (createVertexBuffer { m_vertex_buffer := some 5, m_index_buffer := some 6 }).1.m_vertex_buffer =
      none ∧
    (createIndexBuffer { m_vertex_buffer := some 5, m_index_buffer := some 6 }).2.2 =
      Except.ok () ∧
    (createIndexBuffer { m_vertex_buffer := some 5, m_index_buffer := some 6 }).1.m_index_buffer =
      none :=
  ⟨rfl, rfl, rfl, rfl⟩

/-- C8 (amended): every call to `createVertexBuffer` (and likewise
`createIndexBuffer`) first destroys any pre-existing buffer of the same
role (guarded by a null check) and then returns success without
allocating a replacement — the staging-buffer-and-copy body is commented
out in the source — so after a successful call the handle of that role
is null, and a repeated call destroys nothing (re-entrancy is trivial). -/
theorem createBuffers_destroy_only (s : PipelineBufferState) :
    (createVertexBuffer s).2.2 = Except.ok () ∧
    (createVertexBuffer s).1.m_vertex_buffer = none ∧
    (createVertexBuffer s).2.1 = s.m_vertex_buffer.toList ∧
    (createVertexBuffer (createVertexBuffer s).1).2.1 = [] ∧
    (createIndexBuffer s).2.2 = Except.ok () ∧
    (createIndexBuffer s).1.m_index_buffer = none ∧
    (createIndexBuffer s).2.1 = s.m_index_buffer.toList ∧
    (createIndexBuffer (createIndexBuffer s).1).2.1 = [] := by
  simp [createVertexBuffer, createIndexBuffer]

/-- C9 counterexample: running the `Pipeline` teardown twice on a state
holding shader module 42 destroys that module in both runs — the shader
module loop is guarded only by `m_shader_modules.size() > 0` and the
vector is never cleared, so the second teardown re-destroys the same
native object. -/
theorem pipelineDestructor_redestroys_shader_modules :
    42 ∈ (pipelineDestructor pipelineExample).2 ∧
    42 ∈ (pipelineDestructor (pipelineDestructor pipelineExample).1).2 := by
  decide

/-- C9 (amended): a second teardown of Device, Swapchain or
CommandRecorder destroys no native object (each destroy step is guarded
by a null check and nulls its handle, and `Device::Destroy` destroys the
logical device exactly once); a second `Pipeline` teardown destroys no
handle either, except that it re-destroys the shader modules, whose
vector is not cleared by the first run. -/
theorem teardown_idempotent_amended (d : DeviceState) (sc : SwapChainState)
    (device_non_null : Bool) (c : CommandState) (p : PipelineState) :
    (Device.Destroy (Device.Destroy d).1).2 = [] ∧
    (swapChainDestructor (swapChainDestructor sc).1).2 = [] ∧
    (commandDestructor device_non_null
       (commandDestructor device_non_null c).1).2 = [] ∧
    (Device.Destroy d).2 = d.m_logical_device.toList ∧
    (pipelineDestructor (pipelineDestructor p).1).2 = p.m_shader_modules := by
  refine ⟨?_, ?_, ?_, ?_, ?_⟩
  · rcases d with ⟨_ | x⟩ <;> rfl
  · rcases sc with ⟨_ | x⟩ <;> rfl
  · rcases c with ⟨_ | x, b⟩ <;> cases device_non_null <;> rfl
  · rcases d with ⟨_ | x⟩ <;> rfl
  · rcases p with ⟨sm, rp, la, vb, ib, pl, si, sp, sf⟩
    simp [pipelineDestructor]

/-- On success, `record` produced the fixed command sequence. -/
theorem record_ok_cmds (begin_ok end_ok : Bool)
    (swapchain_index framebuffer_count : Nat) (cmds : List Cmd)
    (h : record begin_ok end_ok swapchain_index framebuffer_count =
      Except.ok cmds) :
    cmds = [Cmd.beginRenderPass, Cmd.bindPipeline, Cmd.setViewport,
      Cmd.setScissor, Cmd.bindVertexBuffers, Cmd.bindIndexBuffer,
      Cmd.drawIndexed 0 1 0 0 0, Cmd.endRenderPass] := by
  unfold record at h
  split at h
  · exact absurd h (by simp)
  · split at h
    · exact absurd h (by simp)
    · split at h
      · exact absurd h (by simp)
      · injection h with h2
        exact h2.symm

/-- C10: every successful call to `Command::record` records exactly one
indexed draw command, and the index count of that draw is the constant
zero (`indices_size = 0` in command.cpp): every recorded frame draws no
geometry beyond the render-pass clear. -/
theorem record_single_zero_draw (begin_ok end_ok : Bool)
    (swapchain_index framebuffer_count : Nat) (cmds : List Cmd)
    (h : record begin_ok end_ok swapchain_index framebuffer_count =
      Except.ok cmds) :
    cmds.countP isDrawIndexed = 1 ∧
    Cmd.drawIndexed 0 1 0 0 0 ∈ cmds ∧
    (∀ n a b c d, Cmd.drawIndexed n a b c d ∈ cmds → n = 0) := by
  have hc := record_ok_cmds begin_ok end_ok swapchain_index
    framebuffer_count cmds h
  subst hc
  refine ⟨by decide, by decide, ?_⟩
  intro n a b c d hm
  simp only [List.mem_cons, List.not_mem_nil, or_false,
    Cmd.drawIndexed.injEq, reduceCtorEq, false_or] at hm
  exact hm.1

/-- C10 witness: the recording property evaluated on a successful call
with frame index 0 and 3 framebuffers. -/
theorem record_single_zero_draw_witness :
    ([Cmd.beginRenderPass, Cmd.bindPipeline, Cmd.setViewport,
      Cmd.setScissor, Cmd.bindVertexBuffers, Cmd.bindIndexBuffer,
      Cmd.drawIndexed 0 1 0 0 0, Cmd.endRenderPass].countP isDrawIndexed = 1) ∧
    Cmd.drawIndexed 0 1 0 0 0 ∈
      [Cmd.beginRenderPass, Cmd.bindPipeline, Cmd.setViewport,
       Cmd.setScissor, Cmd.bindVertexBuffers, Cmd.bindIndexBuffer,
       Cmd.drawIndexed 0 1 0 0 0, Cmd.endRenderPass] ∧
    (∀ n a b c d, Cmd.drawIndexed n a b c d ∈
      [Cmd.beginRenderPass, Cmd.bindPipeline, Cmd.setViewport,
       Cmd.setScissor, Cmd.bindVertexBuffers, Cmd.bindIndexBuffer,
       Cmd.drawIndexed 0 1 0 0 0, Cmd.endRenderPass] → n = 0) :=
  record_single_zero_draw true true 0 3 _ rfl

end VulkanoApp
